import Mathlib

/-!
Shallow embedding of the `url-monitoring` repository
(src/monitor.py, src/analytics.py, src/url-monitor-analytics.py).

Conventions of the embedding:
* Python floats are modelled by exact rationals (ℚ).
* `datetime` instants and `timedelta`s are modelled as rational numbers of
  seconds; `timedelta(hours=1)` is the constant 3600.
* Python dicts (insertion-ordered) are modelled as association lists with
  distinct keys, updated in place.
* Header values are strings in Python; only their float-parse result is
  observable in this code (`float(h)` either yields a value or raises),
  so a header value is modelled as `Option ℚ` (`none` = unparsable string).
* Python exceptions raised by the analytics code are modelled with
  `Except AnalyticsError`.
* `np.std` returns the square root of the population variance; since the
  square root of a rational is in general irrational, `URLMetrics` stores
  the population variance in the field `sentiment_volatility_sq`, and the
  code's `sentiment_volatility` is `Real.sqrt` of that field.  Likewise the
  comparative `sentiment_stability` is `1 - Real.sqrt volatility_score_sq`.
-/

/-- Errors raised by the analytics layer.
`no_snapshots` models the `ValueError("No snapshots provided for analysis")`
of `analyze_url`; `key_error` models the `KeyError` of
`s.sentiment_scores['compound']` when the key is absent; `degenerate_input`
models Python's `ZeroDivisionError` on a zero denominator (the spec's
taxonomy names the zero-denominator failure of comparative scoring
`DegenerateInputError`, and the content-stability `0/0` is the same
exception class). -/
inductive AnalyticsError where
  | no_snapshots
  | key_error
  | degenerate_input
deriving DecidableEq, Repr

/-- Embedding of the `PageSnapshot` dataclass of src/monitor.py. -/
structure PageSnapshot where
  url : String
  timestamp : ℚ
  content : String
  hash : String
  text_content : String
  sentiment_scores : List (String × ℚ)
  headers : List (String × Option ℚ)
  status_code : Nat
deriving DecidableEq, Repr

/-- Embedding of the `URLMetrics` dataclass of src/analytics.py.
`sentiment_volatility_sq` is the square of the code's
`sentiment_volatility` (see the header comment). -/
structure URLMetrics where
  change_frequency : ℚ
  avg_sentiment : ℚ
  sentiment_volatility_sq : ℚ
  response_times : List ℚ
  status_codes : List (Nat × Nat)
  content_stability : ℚ
deriving DecidableEq, Repr

/-- Python dict lookup on an insertion-ordered association list. -/
def dict_lookup {κ α : Type} [DecidableEq κ] : List (κ × α) → κ → Option α
  | [], _ => none
  | (k0, v) :: rest, k => if k0 = k then some v else dict_lookup rest k

/-- Embedding of `np.mean` on a list of floats (callers guard against the
empty list, on which `np.mean` would yield NaN). -/
def np_mean (xs : List ℚ) : ℚ := xs.sum / (xs.length : ℚ)

/-- Embedding of the square of `np.std` (default `ddof=0`): the population
variance, `mean((x - mean(x))**2)`. -/
def np_var (xs : List ℚ) : ℚ := np_mean (xs.map (fun x => (x - np_mean xs) ^ 2))

/-- Embedding of `sum(1 for i in range(1, len(snapshots)) if
snapshots[i].hash != snapshots[i-1].hash)` (src/analytics.py lines 39-40). -/
def count_changes : List PageSnapshot → Nat
  | a :: b :: rest => (if b.hash ≠ a.hash then 1 else 0) + count_changes (b :: rest)
  | _ => 0

/-- Embedding of the response-time collection loop (src/analytics.py lines
50-56): for each snapshot, if the `X-Response-Time` header is present and
parses as a float it is appended, otherwise silently skipped. -/
def collect_response_times (snapshots : List PageSnapshot) : List ℚ :=
  snapshots.filterMap (fun s =>
    match dict_lookup s.headers "X-Response-Time" with
    | some (some v) => some v
    | _ => none)

/-- One `status_codes[snapshot.status_code] += 1` step on the
insertion-ordered histogram (`defaultdict(int)` of src/analytics.py). -/
def bump_status : List (Nat × Nat) → Nat → List (Nat × Nat)
  | [], c => [(c, 1)]
  | (k, v) :: rest, c =>
      if k = c then (k, v + 1) :: rest else (k, v) :: bump_status rest c

/-- Embedding of the status-code histogram loop of `analyze_url`. -/
def count_statuses (snapshots : List PageSnapshot) : List (Nat × Nat) :=
  snapshots.foldl (fun acc s => bump_status acc s.status_code) []

/-- Embedding of the content-stability loop of `analyze_url`
(src/analytics.py lines 58-64): for each adjacent pair,
`1 - abs(curr_len - prev_len) / max(prev_len, curr_len)`; when both lengths
are 0 Python raises `ZeroDivisionError` at the first such pair. -/
def stability_scores : List PageSnapshot → Except AnalyticsError (List ℚ)
  | a :: b :: rest =>
      let prev_len := a.text_content.length
      let curr_len := b.text_content.length
      if max prev_len curr_len = 0 then .error .degenerate_input
      else
        match stability_scores (b :: rest) with
        | .error e => .error e
        | .ok scores =>
            .ok ((1 - (((curr_len : ℤ) - (prev_len : ℤ)).natAbs : ℚ) / (max prev_len curr_len : ℚ)) :: scores)
  | _ => .ok []

/-- Embedding of `[s.sentiment_scores['compound'] for s in snapshots]`
(src/analytics.py line 43): `none` models the `KeyError` raised at the first
snapshot whose sentiment mapping lacks the `compound` key. -/
def lookup_compounds : List PageSnapshot → Option (List ℚ)
  | [] => some []
  | s :: rest =>
      match dict_lookup s.sentiment_scores "compound" with
      | none => none
      | some v =>
          match lookup_compounds rest with
          | none => none
          | some vs => some (v :: vs)

/-- Embedding of `URLAnalytics.analyze_url` (src/analytics.py lines 33-76,
identical to src/url-monitor-analytics.py lines 22-71). -/
def analyze_url (snapshots : List PageSnapshot) : Except AnalyticsError URLMetrics :=
  match snapshots with
  | [] => .error .no_snapshots
  | s0 :: _ =>
      let slast := snapshots.getLastD s0
      let total_days := (slast.timestamp - s0.timestamp) / 86400
      let changes := count_changes snapshots
      let change_frequency := if total_days > 0 then (changes : ℚ) / total_days else 0
      match lookup_compounds snapshots with
      | none => .error .key_error
      | some sentiments =>
          let avg_sentiment := np_mean sentiments
          let sentiment_volatility_sq := np_var sentiments
          let response_times := collect_response_times snapshots
          let status_codes := count_statuses snapshots
          match stability_scores snapshots with
          | .error e => .error e
          | .ok scores =>
              let content_stability := if snapshots.length > 1 then np_mean scores else 1
              .ok { change_frequency := change_frequency
                    avg_sentiment := avg_sentiment
                    sentiment_volatility_sq := sentiment_volatility_sq
                    response_times := response_times
                    status_codes := status_codes
                    content_stability := content_stability }

/-- Insertion-ordered dict assignment `d[k] = v`: replaces the value at an
existing key in place, otherwise appends the new binding at the end. -/
def dict_insert {α : Type} : List (String × α) → String → α → List (String × α)
  | [], k, v => [(k, v)]
  | (k0, v0) :: rest, k, v =>
      if k0 = k then (k, v) :: rest else (k0, v0) :: dict_insert rest k v

/-- The `metrics_cache` of `URLAnalytics`: url ↦ (computed-at instant, metrics). -/
def MetricsCache : Type := List (String × (ℚ × URLMetrics))

/-- Embedding of `self.cache_duration = timedelta(hours=1)`, in seconds. -/
def cache_duration : ℚ := 3600

/-- Embedding of `URLAnalytics.get_url_metrics` (src/analytics.py lines
22-31).  The instance's mutable `metrics_cache` is passed and returned
explicitly; the `datetime.now()` calls of one invocation are modelled as the
single instant `now`.  Returns the metrics together with the cache state
after the call. -/
def get_url_metrics (cache : MetricsCache) (now : ℚ) (url : String)
    (snapshots : List PageSnapshot) :
    Except AnalyticsError (URLMetrics × MetricsCache) :=
  let cached : Option URLMetrics :=
    match dict_lookup cache url with
    | some (timestamp, metrics) =>
        if now - timestamp < cache_duration then some metrics else none
    | none => none
  match cached with
  | some metrics => .ok (metrics, cache)
  | none =>
      match analyze_url snapshots with
      | .error e => .error e
      | .ok metrics => .ok (metrics, dict_insert cache url (now, metrics))

/-- Relative scores computed for one URL by `get_comparative_analysis`.
`volatility_score_sq` is the square of the code's `volatility_score`; the
code's `sentiment_stability` is `1 - Real.sqrt volatility_score_sq` (see the
header comment). -/
structure ComparativeScores where
  dynamism_score : ℚ
  reliability_score : ℚ
  stability_score : ℚ
  volatility_score_sq : ℚ
  performance_score : ℚ
deriving DecidableEq, Repr

/-- Total number of status observations recorded in a `URLMetrics`:
`sum(metrics.status_codes.values())`. -/
def total_statuses (metrics : URLMetrics) : Nat :=
  (metrics.status_codes.map (fun p => p.2)).sum

/-- Embedding of the per-URL body of the scoring loop of
`get_comparative_analysis` (src/url-monitor-analytics.py lines 102-116).
`sum(metrics.status_codes.values()) = 0` makes the `success_rate` division
raise `ZeroDivisionError`, modelled as `degenerate_input`. -/
def score_url (metrics : URLMetrics) (max_change_freq max_volatility_sq : ℚ) :
    Except AnalyticsError ComparativeScores :=
  let change_freq_score :=
    if max_change_freq > 0 then metrics.change_frequency / max_change_freq else 0
  let volatility_score_sq :=
    if max_volatility_sq > 0 then metrics.sentiment_volatility_sq / max_volatility_sq else 0
  let avg_response_time :=
    if metrics.response_times.isEmpty then 0 else np_mean metrics.response_times
  if total_statuses metrics = 0 then .error .degenerate_input
  else
    let success_rate :=
      (((dict_lookup metrics.status_codes 200).getD 0 : ℚ)) / (total_statuses metrics : ℚ)
    .ok { dynamism_score := change_freq_score
          reliability_score := success_rate
          stability_score := metrics.content_stability
          volatility_score_sq := volatility_score_sq
          performance_score :=
            if avg_response_time > 0 then 1 / (1 + avg_response_time) else 1 }

/-- Left-to-right effectful map over `Except`, the evaluation order of the
`comparative_scores` loop (first failing URL aborts the whole call). -/
def map_except {α β : Type} (f : α → Except AnalyticsError β) :
    List α → Except AnalyticsError (List β)
  | [] => .ok []
  | x :: xs =>
      match f x with
      | .error e => .error e
      | .ok y =>
          match map_except f xs with
          | .error e => .error e
          | .ok ys => .ok (y :: ys)

/-- Embedding of `get_comparative_analysis` (src/url-monitor-analytics.py
lines 86-118) applied to the already-computed `base_metrics` (in the source
those come from `get_url_metrics`, one per URL of `snapshots_by_url`).
Empty input returns the empty mapping; otherwise `max_change_freq` and
`max_volatility` are maxima over all URLs (maximising the variance maximises
the nonnegative standard deviation, so the square representation is exact),
and each URL is scored by `score_url`. -/
def get_comparative_analysis (base_metrics : List (String × URLMetrics)) :
    Except AnalyticsError (List (String × ComparativeScores)) :=
  match base_metrics with
  | [] => .ok []
  | (u0, m0) :: rest =>
      let max_change_freq :=
        (rest.map (fun p => p.2.change_frequency)).foldl max m0.change_frequency
      let max_volatility_sq :=
        (rest.map (fun p => p.2.sentiment_volatility_sq)).foldl max m0.sentiment_volatility_sq
      map_except
        (fun p =>
          match score_url p.2 max_change_freq max_volatility_sq with
          | .error e => .error e
          | .ok s => .ok (p.1, s))
        ((u0, m0) :: rest)

/-- Embedding of the per-URL history update of one `monitor` round
(src/monitor.py lines 130-132): the new snapshot is appended only when the
list is empty or its hash differs from the current last snapshot's hash. -/
def monitor_store_step (hist : List PageSnapshot) (result : PageSnapshot) :
    List PageSnapshot :=
  if hist.isEmpty then hist ++ [result]
  else if result.hash ≠ (hist.getLastD result).hash then hist ++ [result]
  else hist

/-- Embedding of the per-URL history update of `add_urls` (src/monitor.py
lines 47-51): a failed fetch leaves the history mapping unchanged, a
successful fetch assigns `history[url] = [result]`. -/
def add_urls_store (history : List (String × List PageSnapshot)) (url : String)
    (result : Except String PageSnapshot) : List (String × List PageSnapshot) :=
  match result with
  | .error _ => history
  | .ok snap => dict_insert history url [snap]

/-- Scheduling state of one `_fetch_and_analyze` task with respect to the
shared semaphore (src/monitor.py lines 53-56): not yet past
`async with self.semaphore`, inside the guarded fetch section, or finished
(permit released). -/
inductive TaskState where
  | not_started
  | in_flight
  | finished
deriving DecidableEq, Repr

/-- Number of tasks currently inside the semaphore-guarded section. -/
def in_flight_count {n : Nat} (s : Fin n → TaskState) : Nat :=
  Finset.univ.sum (fun i => if s i = TaskState.in_flight then 1 else 0)

/-- Modelled from the external library semantics of `asyncio.Semaphore`
(src/monitor.py line 28 creates it with `concurrency_limit` permits; line 55
wraps the fetch in `async with self.semaphore`): one cooperative scheduler
step of a round of `n` fetch tasks.  A task may enter the guarded section
only while fewer than `limit` tasks are inside it (acquire), and a task
inside it may leave (release). -/
inductive SemStep (limit : Nat) {n : Nat} :
    (Fin n → TaskState) → (Fin n → TaskState) → Prop where
  | acquire (s : Fin n → TaskState) (i : Fin n)
      (hstart : s i = TaskState.not_started)
      (hperm : in_flight_count s < limit) :
      SemStep limit s (Function.update s i TaskState.in_flight)
  | release (s : Fin n → TaskState) (i : Fin n)
      (hin : s i = TaskState.in_flight) :
      SemStep limit s (Function.update s i TaskState.finished)

/-- Initial state of a round: no task has acquired the semaphore yet. -/
def sem_init (n : Nat) : Fin n → TaskState := fun _ => TaskState.not_started

/-- States reachable by interleaving acquire/release steps from the start of
a round. -/
def SemReachable (limit n : Nat) (s : Fin n → TaskState) : Prop :=
  Relation.ReflTransGen (SemStep limit) (sem_init n) s

/-- Snapshot constructor for concrete test inputs: raw content and extracted
text coincide, the sentiment mapping holds just the `compound` key. -/
def mk_snap (ts : ℚ) (hsh : String) (txt : String) (compound : ℚ)
    (hdrs : List (String × Option ℚ)) (status : Nat) : PageSnapshot :=
  { url := "http://example.com", timestamp := ts, content := txt, hash := hsh,
    text_content := txt, sentiment_scores := [("compound", compound)],
    headers := hdrs, status_code := status }

/-- The spec's sentiment example: compound scores 0, 0.5, -0.5, 0.5. -/
def sentiment_example : List PageSnapshot :=
  [mk_snap 0 "a" "x" 0 [] 200, mk_snap 1 "a" "x" (1/2) [] 200,
   mk_snap 2 "a" "x" (-1/2) [] 200, mk_snap 3 "a" "x" (1/2) [] 200]

/-- The spec's change-frequency example: hashes A, A, B, B, C at one-day
intervals, spanning exactly 4 days (345600 seconds). -/
def change_example : List PageSnapshot :=
  [mk_snap 0 "A" "x" 0 [] 200, mk_snap 86400 "A" "x" 0 [] 200,
   mk_snap 172800 "B" "x" 0 [] 200, mk_snap 259200 "B" "x" 0 [] 200,
   mk_snap 345600 "C" "x" 0 [] 200]

/-- Two snapshots whose extracted texts are both empty. -/
def empty_text_example : List PageSnapshot :=
  [mk_snap 0 "a" "" 0 [] 200, mk_snap 10 "b" "" 0 [] 200]

/-- A single snapshot carrying a negative parsed `X-Response-Time` header. -/
def negative_rt_example : List PageSnapshot :=
  [mk_snap 0 "a" "x" 0 [("X-Response-Time", some (-2))] 200]

/-- A `URLMetrics` value with an empty status-code histogram (producible at
the comparative-scoring site through a pre-seeded metrics cache). -/
def no_status_metrics : URLMetrics :=
  { change_frequency := 0, avg_sentiment := 0, sentiment_volatility_sq := 0,
    response_times := [], status_codes := [], content_stability := 1 }

/-- Inversion of a successful `analyze_url` run: the input is non-empty,
every snapshot has a `compound` sentiment, no stability pair divides by
zero, and the result's fields are the documented aggregates. -/
lemma analyze_url_ok_elim {snaps : List PageSnapshot} {m : URLMetrics}
    (h : analyze_url snaps = .ok m) :
    ∃ s0 rest compounds scores, snaps = s0 :: rest ∧
      lookup_compounds snaps = some compounds ∧
      stability_scores snaps = .ok scores ∧
      m = { change_frequency :=
              if ((snaps.getLastD s0).timestamp - s0.timestamp) / 86400 > 0 then
                (count_changes snaps : ℚ) /
                  (((snaps.getLastD s0).timestamp - s0.timestamp) / 86400)
              else 0
            avg_sentiment := np_mean compounds
            sentiment_volatility_sq := np_var compounds
            response_times := collect_response_times snaps
            status_codes := count_statuses snaps
            content_stability := if snaps.length > 1 then np_mean scores else 1 } := by
  match snaps with
  | [] => simp [analyze_url] at h
  | s0 :: rest =>
      refine ⟨s0, rest, ?_⟩
      simp only [analyze_url] at h
      cases hc : lookup_compounds (s0 :: rest) with
      | none => rw [hc] at h; simp at h
      | some compounds =>
          rw [hc] at h
          cases hs : stability_scores (s0 :: rest) with
          | error e => rw [hs] at h; simp at h
          | ok scores =>
              rw [hs] at h
              simp only [Except.ok.injEq] at h
              exact ⟨compounds, scores, rfl, rfl, rfl, h.symm⟩

/-- Dict assignment stores the new value at the assigned key. -/
lemma lookup_dict_insert {α : Type} (d : List (String × α)) (k : String) (v : α) :
    dict_lookup (dict_insert d k v) k = some v := by
  induction d with
  | nil => simp [dict_insert, dict_lookup]
  | cons p rest ih =>
      by_cases hk : p.1 = k
      · simp [dict_insert, hk, dict_lookup]
      · simpa [dict_insert, hk, dict_lookup] using ih

/-- A fresh cache entry makes `get_url_metrics` return it unchanged. -/
lemma get_url_metrics_hit {cache : MetricsCache} {now : ℚ} {url : String}
    {ts : ℚ} {m : URLMetrics} (snaps : List PageSnapshot)
    (hc : dict_lookup cache url = some (ts, m)) (hfresh : now - ts < cache_duration) :
    get_url_metrics cache now url snaps = .ok (m, cache) := by
  simp [get_url_metrics, hc, hfresh]

/-- With no entry for the URL, `get_url_metrics` recomputes and stores. -/
lemma get_url_metrics_miss {cache : MetricsCache} {now : ℚ} {url : String}
    {snaps : List PageSnapshot} {m : URLMetrics}
    (hc : dict_lookup cache url = none) (ha : analyze_url snaps = .ok m) :
    get_url_metrics cache now url snaps = .ok (m, dict_insert cache url (now, m)) := by
  simp [get_url_metrics, hc, ha]

/-- With an expired entry for the URL, `get_url_metrics` recomputes and
replaces the stale entry. -/
lemma get_url_metrics_stale {cache : MetricsCache} {now : ℚ} {url : String}
    {snaps : List PageSnapshot} {ts : ℚ} {m0 m : URLMetrics}
    (hc : dict_lookup cache url = some (ts, m0)) (hstale : ¬ now - ts < cache_duration)
    (ha : analyze_url snaps = .ok m) :
    get_url_metrics cache now url snaps = .ok (m, dict_insert cache url (now, m)) := by
  simp [get_url_metrics, hc, hstale, ha]

/-- One histogram bump adds one to the total of the counts. -/
lemma bump_status_total (acc : List (Nat × Nat)) (c : Nat) :
    ((bump_status acc c).map (fun p => p.2)).sum = ((acc.map (fun p => p.2)).sum) + 1 := by
  induction acc with
  | nil => simp [bump_status]
  | cons p rest ih =>
      by_cases hk : p.1 = c
      · simp [bump_status, hk]
        omega
      · simp [bump_status, hk, ih]
        omega

/-- One histogram bump adds one to the bumped key's count. -/
lemma bump_status_lookup_self (acc : List (Nat × Nat)) (c : Nat) :
    (dict_lookup (bump_status acc c) c).getD 0 = ((dict_lookup acc c).getD 0) + 1 := by
  induction acc with
  | nil => simp [bump_status, dict_lookup]
  | cons p rest ih =>
      by_cases hk : p.1 = c
      · simp [bump_status, hk, dict_lookup]
      · simpa [bump_status, hk, dict_lookup] using ih

/-- One histogram bump leaves other keys' counts unchanged. -/
lemma bump_status_lookup_ne (acc : List (Nat × Nat)) (c k : Nat) (hk : k ≠ c) :
    dict_lookup (bump_status acc c) k = dict_lookup acc k := by
  induction acc with
  | nil => simp [bump_status, dict_lookup, Ne.symm hk]
  | cons p rest ih =>
      by_cases hp : p.1 = c
      · have hp1 : p.1 ≠ k := by rw [hp]; exact Ne.symm hk
        simp [bump_status, hp, dict_lookup, hp1, Ne.symm hk]
      · by_cases hpk : p.1 = k
        · simp [bump_status, hp, hpk, dict_lookup, hk]
        · simpa [bump_status, hp, dict_lookup, hpk] using ih

/-- The status histogram totals one observation per snapshot (stated over
the fold with a generalized accumulator). -/
lemma count_statuses_go_total (snaps : List PageSnapshot) :
    ∀ acc : List (Nat × Nat),
      ((snaps.foldl (fun a s => bump_status a s.status_code) acc).map (fun p => p.2)).sum =
        ((acc.map (fun p => p.2)).sum) + snaps.length := by
  induction snaps with
  | nil => intro acc; simp
  | cons s rest ih =>
      intro acc
      simp only [List.foldl_cons, List.length_cons]
      rw [ih, bump_status_total]
      omega

/-- Total status observations of `analyze_url` output = number of snapshots. -/
lemma count_statuses_total (snaps : List PageSnapshot) :
    ((count_statuses snaps).map (fun p => p.2)).sum = snaps.length := by
  simpa [count_statuses] using count_statuses_go_total snaps []

/-- The histogram's count at key `k` is the number of snapshots whose status
code is `k` (stated over the fold with a generalized accumulator). -/
lemma count_statuses_go_lookup (k : Nat) (snaps : List PageSnapshot) :
    ∀ acc : List (Nat × Nat),
      ((dict_lookup (snaps.foldl (fun a s => bump_status a s.status_code) acc) k).getD 0) =
        ((dict_lookup acc k).getD 0) + snaps.countP (fun s => s.status_code == k) := by
  induction snaps with
  | nil => intro acc; simp
  | cons s rest ih =>
      intro acc
      simp only [List.foldl_cons, List.countP_cons]
      rw [ih]
      by_cases hs : s.status_code = k
      · subst hs
        rw [bump_status_lookup_self]
        simp
        omega
      · rw [bump_status_lookup_ne _ _ _ (Ne.symm hs)]
        simp [hs]

/-- Count at key `k` of the status histogram = number of snapshots with
status code `k`. -/
lemma count_statuses_lookup (k : Nat) (snaps : List PageSnapshot) :
    ((dict_lookup (count_statuses snaps) k).getD 0) =
      snaps.countP (fun s => s.status_code == k) := by
  simpa [count_statuses, dict_lookup] using count_statuses_go_lookup k snaps []

/-- `score_url` can only fail with the zero-denominator error. -/
lemma score_url_error_elim {m : URLMetrics} {a b : ℚ} {e : AnalyticsError}
    (h : score_url m a b = .error e) : e = .degenerate_input := by
  by_cases ht : total_statuses m = 0
  · simp [score_url, ht] at h; exact h.symm
  · simp [score_url, ht] at h

/-- Scoring metrics with an empty status histogram fails. -/
lemma score_url_no_statuses {m : URLMetrics} {a b : ℚ}
    (ht : total_statuses m = 0) : score_url m a b = .error .degenerate_input := by
  simp [score_url, ht]

/-- Scoring metrics with a non-empty status histogram succeeds with the
`status-200 count / total` reliability ratio. -/
lemma score_url_ok {m : URLMetrics} {a b : ℚ} (ht : total_statuses m ≠ 0) :
    ∃ s, score_url m a b = .ok s ∧
      s.reliability_score =
        (((dict_lookup m.status_codes 200).getD 0 : ℚ)) / (total_statuses m : ℚ) := by
  simp only [score_url, ht, if_false]
  exact ⟨_, rfl, rfl⟩

/-- Updating one task's state shifts the in-flight count by the difference
of the old and new contributions. -/
lemma in_flight_count_update {n : Nat} (s : Fin n → TaskState) (i : Fin n) (v : TaskState) :
    in_flight_count (Function.update s i v) + (if s i = TaskState.in_flight then 1 else 0) =
      in_flight_count s + (if v = TaskState.in_flight then 1 else 0) := by
  unfold in_flight_count
  have hupd : (fun j => if Function.update s i v j = TaskState.in_flight then (1 : ℕ) else 0) =
      Function.update (fun j => if s j = TaskState.in_flight then (1 : ℕ) else 0) i
        (if v = TaskState.in_flight then 1 else 0) := by
    funext j
    exact Function.apply_update (fun _ t => if t = TaskState.in_flight then (1 : ℕ) else 0) s i v j
  rw [hupd, Finset.sum_update_of_mem (Finset.mem_univ i), Finset.sdiff_singleton_eq_erase,
    ← Finset.add_sum_erase _ _ (Finset.mem_univ i)]
  ring

/-- If some list element makes `f` fail, and `f` fails only with
`degenerate_input`, the whole effectful map fails with `degenerate_input`. -/
lemma map_except_error {α β : Type} {f : α → Except AnalyticsError β}
    {l : List α} {x : α} (hx : x ∈ l) (hfx : f x = .error .degenerate_input)
    (honly : ∀ y e, f y = .error e → e = .degenerate_input) :
    map_except f l = .error .degenerate_input := by
  induction l with
  | nil => cases hx
  | cons y ys ih =>
      cases hfy : f y with
      | error e => simp [map_except, hfy, honly y e hfy]
      | ok b =>
          have hxys : x ∈ ys := by
            rcases List.mem_cons.mp hx with hxy | hxys
            · subst hxy; rw [hfy] at hfx; cases hfx
            · exact hxys
          simp [map_except, hfy, ih hxys]

/-- Metrics computed by `analyze_url` on `change_example` (all statuses 200,
two hash changes over a 4-day span). -/
def change_example_metrics : URLMetrics :=
  { change_frequency := 1/2, avg_sentiment := 0, sentiment_volatility_sq := 0,
    response_times := [], status_codes := [(200, 5)], content_stability := 1 }

/-- Metrics computed by `analyze_url` on `sentiment_example`. -/
def sentiment_example_metrics : URLMetrics :=
  { change_frequency := 0, avg_sentiment := 1/8, sentiment_volatility_sq := 11/64,
    response_times := [], status_codes := [(200, 4)], content_stability := 1 }

/-- A `URLMetrics` holding a single positive recorded response time. -/
def positive_rt_metrics : URLMetrics :=
  { change_frequency := 0, avg_sentiment := 0, sentiment_volatility_sq := 0,
    response_times := [1], status_codes := [(200, 1)], content_stability := 1 }

/-- C8: during a registration or monitoring round, the number of fetch tasks
simultaneously past semaphore acquisition never exceeds the configured
concurrency limit, in every reachable interleaving and for any number of
URLs in the round. -/
theorem fetch_concurrency_bounded (limit n : Nat) (s : Fin n → TaskState)
    (h : SemReachable limit n s) : in_flight_count s ≤ limit := by
  have step : ∀ t u : Fin n → TaskState, SemStep limit t u →
      in_flight_count t ≤ limit → in_flight_count u ≤ limit := by
    intro t u hstep hle
    cases hstep with
    | acquire i hstart hperm =>
        have hc := in_flight_count_update t i TaskState.in_flight
        rw [hstart] at hc
        simp at hc
        omega
    | release i hin =>
        have hc := in_flight_count_update t i TaskState.finished
        rw [hin] at hc
        simp at hc
        omega
  induction h with
  | refl => simp [in_flight_count, sem_init]
  | tail hsteps hstep ih => exact step _ _ hstep ih

/-- Witness for C8: a round of 20 fetch tasks with limit 5, after one
acquisition step, has at most 5 tasks in flight. -/
theorem fetch_concurrency_bounded_witness :
    in_flight_count (Function.update (sem_init 20) (0 : Fin 20) TaskState.in_flight) ≤ 5 :=
  fetch_concurrency_bounded 5 20 _
    (Relation.ReflTransGen.single
      (SemStep.acquire (sem_init 20) (0 : Fin 20) rfl (by decide)))

/-- C9: a successful registration fetch (`add_urls`) for a URL that already
has a stored history replaces that entire history with the fresh one-element
sequence holding only the new snapshot. -/
theorem add_urls_replaces_history (history : List (String × List PageSnapshot))
    (url : String) (old : List PageSnapshot) (snap : PageSnapshot)
    (_hold : dict_lookup history url = some old) :
    dict_lookup (add_urls_store history url (Except.ok snap)) url = some [snap] := by
  simpa [add_urls_store] using lookup_dict_insert history url [snap]

/-- Witness for C9: re-registering a URL with a 5-snapshot history leaves a
one-element history holding only the new snapshot. -/
theorem add_urls_replaces_history_witness :
    dict_lookup
      (add_urls_store [("http://example.com", change_example)] "http://example.com"
        (Except.ok (mk_snap 400000 "D" "y" 0 [] 200)))
      "http://example.com" = some [mk_snap 400000 "D" "y" 0 [] 200] :=
  add_urls_replaces_history _ "http://example.com" change_example _ (by simp [dict_lookup])

/-- C10: while a cache entry for the url is fresh, the result of
`get_url_metrics` is independent of the snapshots argument, and the call
with the empty sequence succeeds (no empty-input error is raised). -/
theorem cache_hit_ignores_snapshots (cache : MetricsCache) (now : ℚ) (url : String)
    (ts : ℚ) (m : URLMetrics) (snaps1 snaps2 : List PageSnapshot)
    (hc : dict_lookup cache url = some (ts, m)) (hfresh : now - ts < cache_duration) :
    get_url_metrics cache now url snaps1 = get_url_metrics cache now url snaps2 ∧
      get_url_metrics cache now url [] = Except.ok (m, cache) := by
  refine ⟨?_, get_url_metrics_hit [] hc hfresh⟩
  rw [get_url_metrics_hit snaps1 hc hfresh, get_url_metrics_hit snaps2 hc hfresh]

/-- Witness for C10: a half-hour-old entry makes the call with a 5-snapshot
history and the call with no snapshots agree, and the latter raises no
error. -/
theorem cache_hit_ignores_snapshots_witness :
    get_url_metrics [("u", (0, no_status_metrics))] 1800 "u" change_example =
        get_url_metrics [("u", (0, no_status_metrics))] 1800 "u" [] ∧
      get_url_metrics [("u", (0, no_status_metrics))] 1800 "u" [] =
        Except.ok (no_status_metrics, [("u", (0, no_status_metrics))]) :=
  cache_hit_ignores_snapshots [("u", (0, no_status_metrics))] 1800 "u" 0
    no_status_metrics change_example [] (by simp [dict_lookup]) (by norm_num [cache_duration])

/-- Length of the one-character text used by the concrete examples. -/
lemma length_x : "x".length = 1 := by decide

/-- Evaluation of the analyzer on the change-frequency example. -/
lemma analyze_change_example :
    analyze_url change_example = Except.ok change_example_metrics := by
  simp [analyze_url, change_example, mk_snap, lookup_compounds, dict_lookup,
    stability_scores, count_changes, collect_response_times, count_statuses, bump_status,
    np_mean, np_var, change_example_metrics, length_x]
  norm_num

/-- Inversion of a `get_url_metrics` call that misses the cache: the metrics
were computed by `analyze_url` and stored at the call instant. -/
lemma get_url_metrics_miss_elim {cache c1 : MetricsCache} {now : ℚ} {url : String}
    {snaps : List PageSnapshot} {m : URLMetrics}
    (hc : dict_lookup cache url = none)
    (h : get_url_metrics cache now url snaps = .ok (m, c1)) :
    analyze_url snaps = .ok m ∧ c1 = dict_insert cache url (now, m) := by
  simp only [get_url_metrics, hc] at h
  cases ha : analyze_url snaps with
  | error e => rw [ha] at h; simp at h
  | ok m2 =>
      rw [ha] at h
      simp only [Except.ok.injEq, Prod.mk.injEq] at h
      obtain ⟨h1, h2⟩ := h
      subst h1
      exact ⟨rfl, h2.symm⟩

/-- C7: the metrics-cache get operation returns a stored entry younger than
the cache duration without recomputation, and otherwise computes metrics
from the given snapshots, stores them at the current instant (replacing any
stale entry) and returns them; consequently a second call within the
duration returns the identical metrics for any snapshots argument, and a
call after expiry reflects the modified snapshot sequence. -/
theorem metrics_cache_contract :
    (∀ (cache : MetricsCache) (now : ℚ) (url : String) (snaps : List PageSnapshot)
        (ts : ℚ) (m : URLMetrics),
        dict_lookup cache url = some (ts, m) → now - ts < cache_duration →
        get_url_metrics cache now url snaps = Except.ok (m, cache)) ∧
    (∀ (cache : MetricsCache) (now : ℚ) (url : String) (snaps : List PageSnapshot)
        (m : URLMetrics),
        dict_lookup cache url = none → analyze_url snaps = Except.ok m →
        get_url_metrics cache now url snaps =
          Except.ok (m, dict_insert cache url (now, m))) ∧
    (∀ (cache : MetricsCache) (now : ℚ) (url : String) (snaps : List PageSnapshot)
        (ts : ℚ) (m0 m : URLMetrics),
        dict_lookup cache url = some (ts, m0) → ¬ now - ts < cache_duration →
        analyze_url snaps = Except.ok m →
        get_url_metrics cache now url snaps =
          Except.ok (m, dict_insert cache url (now, m))) ∧
    (∀ (cache c1 : MetricsCache) (t1 t2 : ℚ) (url : String)
        (snaps1 snaps2 : List PageSnapshot) (m : URLMetrics),
        dict_lookup cache url = none →
        get_url_metrics cache t1 url snaps1 = Except.ok (m, c1) →
        (t2 - t1 < cache_duration →
          get_url_metrics c1 t2 url snaps2 = Except.ok (m, c1)) ∧
        (¬ t2 - t1 < cache_duration → ∀ m2, analyze_url snaps2 = Except.ok m2 →
          get_url_metrics c1 t2 url snaps2 =
            Except.ok (m2, dict_insert c1 url (t2, m2)))) := by
  refine ⟨fun cache now url snaps ts m hc hf => get_url_metrics_hit snaps hc hf,
    fun cache now url snaps m hc ha => get_url_metrics_miss hc ha,
    fun cache now url snaps ts m0 m hc hs ha => get_url_metrics_stale hc hs ha, ?_⟩
  intro cache c1 t1 t2 url snaps1 snaps2 m hc hget
  obtain ⟨ha1, hc1⟩ := get_url_metrics_miss_elim hc hget
  have hl : dict_lookup c1 url = some (t1, m) := by
    rw [hc1]; exact lookup_dict_insert cache url (t1, m)
  exact ⟨fun hfresh => get_url_metrics_hit snaps2 hl hfresh,
    fun hstale m2 ha2 => get_url_metrics_stale hl hstale ha2⟩

/-- Witness for C7: after a computing call at instant 0, a second call half
an hour later with a different (empty) snapshots argument returns the same
cached metrics without recomputation. -/
theorem metrics_cache_contract_witness :
    get_url_metrics [("u", (0, change_example_metrics))] 1800 "u" [] =
      Except.ok (change_example_metrics, [("u", (0, change_example_metrics))]) :=
  ((metrics_cache_contract.2.2.2 [] [("u", (0, change_example_metrics))] 0 1800 "u"
      change_example [] change_example_metrics rfl
      (by simpa [dict_insert] using (@get_url_metrics_miss [] 0 "u" change_example
        change_example_metrics rfl analyze_change_example))).1
    (by norm_num [cache_duration]))

/-- C4: in a monitoring round, a successfully fetched snapshot for a
tracked URL leaves the history unchanged when its hash equals the last
stored hash, and otherwise appends exactly one snapshot while keeping the
timestamps monotonically non-decreasing. -/
theorem monitor_dedup_append (hist : List PageSnapshot) (result : PageSnapshot)
    (hne : hist ≠ []) :
    (result.hash = (hist.getLast hne).hash → monitor_store_step hist result = hist) ∧
    (result.hash ≠ (hist.getLast hne).hash →
      (monitor_store_step hist result).length = hist.length + 1 ∧
      (List.Chain' (fun a b => a.timestamp ≤ b.timestamp) hist →
        (hist.getLast hne).timestamp ≤ result.timestamp →
        List.Chain' (fun a b => a.timestamp ≤ b.timestamp)
          (monitor_store_step hist result))) := by
  have hemp : hist.isEmpty = false := by
    cases hist with
    | nil => exact absurd rfl hne
    | cons a l => rfl
  have hlast : hist.getLastD result = hist.getLast hne := by
    rw [List.getLastD_eq_getLast? result hist, List.getLast?_eq_getLast hist hne]
    rfl
  constructor
  · intro heq
    simp only [monitor_store_step, hemp, Bool.false_eq_true, if_false, hlast, heq, ne_eq,
      not_true_eq_false]
  · intro hdiff
    have hstep : monitor_store_step hist result = hist ++ [result] := by
      simp only [monitor_store_step, hemp, Bool.false_eq_true, if_false, hlast, ne_eq]
      rw [if_pos hdiff]
    refine ⟨by simp [hstep], ?_⟩
    intro hchain hts
    rw [hstep, List.chain'_append]
    refine ⟨hchain, List.chain'_singleton result, ?_⟩
    intro x hx y hy
    rw [List.getLast?_eq_getLast hist hne] at hx
    simp only [Option.mem_def, Option.some.injEq] at hx
    simp only [List.head?_cons, Option.mem_def, Option.some.injEq] at hy
    rw [← hx, ← hy]
    exact hts

/-- Witness for C4: re-fetching the last content (hash C) leaves the
5-element example history unchanged; a new hash D appends exactly one
snapshot and the timestamps stay non-decreasing. -/
theorem monitor_dedup_append_witness :
    monitor_store_step change_example (mk_snap 400000 "C" "x" 0 [] 200) = change_example ∧
    (monitor_store_step change_example (mk_snap 400000 "D" "x" 0 [] 200)).length =
      change_example.length + 1 ∧
    List.Chain' (fun a b => a.timestamp ≤ b.timestamp)
      (monitor_store_step change_example (mk_snap 400000 "D" "x" 0 [] 200)) := by
  have hne : change_example ≠ [] := by simp [change_example]
  have hlastval : change_example.getLast hne = mk_snap 345600 "C" "x" 0 [] 200 := rfl
  have hdiff : (mk_snap 400000 "D" "x" 0 [] 200).hash ≠ (change_example.getLast hne).hash := by
    rw [hlastval]
    simp [mk_snap]
  refine ⟨(monitor_dedup_append change_example _ hne).1 (by rw [hlastval]; rfl),
    ((monitor_dedup_append change_example _ hne).2 hdiff).1,
    ((monitor_dedup_append change_example _ hne).2 hdiff).2 ?_ ?_⟩
  · simp [change_example, mk_snap]
    norm_num
  · rw [hlastval]
    show (345600 : ℚ) ≤ (400000 : ℚ)
    norm_num

/-- C1: in the comparative analysis, a URL whose metrics record at least one
status observation gets `reliability_score` = (status-200 count) / (total
status observations) — hence 1.0 when every observation is a 200 — while a
URL whose metrics record zero status observations makes the operation fail
with the zero-denominator (degenerate-input) error instead of producing a
value. -/
theorem comparative_reliability :
    (∀ (snaps : List PageSnapshot) (m : URLMetrics) (a b : ℚ),
        analyze_url snaps = Except.ok m →
        ∃ s, score_url m a b = Except.ok s ∧
          s.reliability_score =
            (snaps.countP (fun p => p.status_code == 200) : ℚ) / (snaps.length : ℚ)) ∧
    (∀ (snaps : List PageSnapshot) (m : URLMetrics) (a b : ℚ) (s : ComparativeScores),
        analyze_url snaps = Except.ok m → (∀ p ∈ snaps, p.status_code = 200) →
        score_url m a b = Except.ok s → s.reliability_score = 1) ∧
    (∀ (m : URLMetrics) (a b : ℚ), total_statuses m = 0 →
        score_url m a b = Except.error AnalyticsError.degenerate_input) ∧
    (∀ (base : List (String × URLMetrics)) (u : String) (m : URLMetrics),
        (u, m) ∈ base → total_statuses m = 0 →
        get_comparative_analysis base = Except.error AnalyticsError.degenerate_input) := by
  have key : ∀ (snaps : List PageSnapshot) (m : URLMetrics) (a b : ℚ),
      analyze_url snaps = Except.ok m →
      snaps.length ≠ 0 ∧
      ∃ s, score_url m a b = Except.ok s ∧
        s.reliability_score =
          (snaps.countP (fun p => p.status_code == 200) : ℚ) / (snaps.length : ℚ) := by
    intro snaps m a b ha
    obtain ⟨s0, rest, compounds, scores, heq, hcm, hst, hm⟩ := analyze_url_ok_elim ha
    have hcodes : m.status_codes = count_statuses snaps := by rw [hm]
    have htot : total_statuses m = snaps.length := by
      rw [total_statuses, hcodes, count_statuses_total]
    have hlen : snaps.length ≠ 0 := by rw [heq]; simp
    have htne : total_statuses m ≠ 0 := by rw [htot]; exact hlen
    obtain ⟨s, hsc, hrel⟩ := score_url_ok htne
    refine ⟨hlen, s, hsc, ?_⟩
    rw [hrel, hcodes, count_statuses_lookup, htot]
  refine ⟨fun snaps m a b ha => (key snaps m a b ha).2, ?_, ?_, ?_⟩
  · intro snaps m a b s ha hall hsok
    obtain ⟨hlen, s2, hsc2, hrel2⟩ := key snaps m a b ha
    rw [hsc2] at hsok
    simp only [Except.ok.injEq] at hsok
    subst hsok
    have hcount : snaps.countP (fun p => p.status_code == 200) = snaps.length := by
      rw [List.countP_eq_length]
      intro p hp
      simp [hall p hp]
    rw [hrel2, hcount]
    exact div_self (Nat.cast_ne_zero.mpr hlen)
  · intro m a b htot
    exact score_url_no_statuses htot
  · intro base u m hmem htot
    cases base with
    | nil => cases hmem
    | cons p rest =>
        simp only [get_comparative_analysis]
        refine map_except_error hmem ?_ ?_
        · simp [score_url_no_statuses htot]
        · intro y e hfe
          cases hsy : score_url y.2
              ((rest.map (fun q => q.2.change_frequency)).foldl max p.2.change_frequency)
              ((rest.map (fun q => q.2.sentiment_volatility_sq)).foldl max
                p.2.sentiment_volatility_sq) with
          | error e2 =>
              rw [hsy] at hfe
              simp only [Except.error.injEq] at hfe
              rw [← hfe]
              exact score_url_error_elim hsy
          | ok sc =>
              rw [hsy] at hfe
              simp at hfe

/-- Witness for C1: the all-200 example scores reliability 5/5, and a
comparative analysis over metrics with an empty status histogram fails with
the degenerate-input error. -/
theorem comparative_reliability_witness :
    (∃ s, score_url change_example_metrics 0 0 = Except.ok s ∧
        s.reliability_score =
          (change_example.countP (fun p => p.status_code == 200) : ℚ) /
            (change_example.length : ℚ)) ∧
    get_comparative_analysis [("u", no_status_metrics)] =
      Except.error AnalyticsError.degenerate_input := by
  constructor
  · exact comparative_reliability.1 change_example change_example_metrics 0 0
      analyze_change_example
  · exact comparative_reliability.2.2.2 [("u", no_status_metrics)] "u" no_status_metrics
      (by simp) rfl

/-- The adjacent-pair change count equals a `countP` over the zip of the
list with its tail. -/
lemma count_changes_eq_countP : ∀ l : List PageSnapshot,
    count_changes l = (l.zip l.tail).countP (fun p => p.2.hash != p.1.hash)
  | [] => rfl
  | [_] => rfl
  | a :: b :: rest => by
      have ih := count_changes_eq_countP (b :: rest)
      simp only [count_changes, List.tail_cons, List.zip_cons_cons, List.countP_cons, ih,
        bne_iff_ne, ne_eq]
      by_cases h : b.hash = a.hash
      · simp [h]
      · simp [h, Nat.add_comm]

/-- The change-frequency example history is non-empty. -/
lemma change_example_ne : change_example ≠ [] := by simp [change_example]

/-- C5: for a non-empty history, `change_frequency` is the number of
adjacent pairs with differing hashes divided by the day-span between the
first and last timestamps, and 0 when that span is 0; the example with
hashes A, A, B, B, C over 4 days yields 0.5 changes per day. -/
theorem change_frequency_spec :
    (∀ (snaps : List PageSnapshot) (m : URLMetrics) (hne : snaps ≠ []),
        analyze_url snaps = Except.ok m →
        ((((snaps.getLast hne).timestamp - (snaps.head hne).timestamp) / 86400 > 0 →
            m.change_frequency =
              ((snaps.zip snaps.tail).countP (fun p => p.2.hash != p.1.hash) : ℚ) /
                (((snaps.getLast hne).timestamp - (snaps.head hne).timestamp) / 86400)) ∧
         (((snaps.getLast hne).timestamp - (snaps.head hne).timestamp) / 86400 = 0 →
            m.change_frequency = 0))) ∧
    (analyze_url change_example).map (fun m => m.change_frequency) = Except.ok (1/2) := by
  constructor
  · intro snaps m hne ha
    obtain ⟨s0, rest, compounds, scores, heq, hcm, hst, hm⟩ := analyze_url_ok_elim ha
    subst heq
    have hlastd : (s0 :: rest).getLastD s0 = (s0 :: rest).getLast hne := by
      rw [List.getLastD_eq_getLast? s0 (s0 :: rest), List.getLast?_eq_getLast _ hne]
      rfl
    constructor
    · intro hpos
      simp only [List.head_cons] at hpos
      simp only [hm, hlastd, List.head_cons, List.tail_cons]
      rw [if_pos hpos, count_changes_eq_countP]
      simp
    · intro hzero
      simp only [List.head_cons] at hzero
      simp only [hm, hlastd, List.head_cons]
      rw [hzero]
      norm_num
  · rw [analyze_change_example]
    simp [change_example_metrics, Except.map]

/-- Witness for C5: on the concrete A, A, B, B, C example the proved
formula evaluates to 2 changes over a 4-day span. -/
theorem change_frequency_spec_witness :
    change_example_metrics.change_frequency =
      ((change_example.zip change_example.tail).countP (fun p => p.2.hash != p.1.hash) : ℚ) /
        (((change_example.getLast change_example_ne).timestamp -
            (change_example.head change_example_ne).timestamp) / 86400) :=
  (change_frequency_spec.1 change_example change_example_metrics change_example_ne
      analyze_change_example).1
    (by
      have h1 : (change_example.getLast change_example_ne).timestamp = 345600 := rfl
      have h2 : (change_example.head change_example_ne).timestamp = 0 := rfl
      rw [h1, h2]
      norm_num)

/-- C2 counterexample: two snapshots whose extracted texts are both empty
have equal text lengths, yet `analyze_url` fails with the zero-division
(degenerate-input) error instead of returning content_stability = 1.0. -/
theorem content_stability_counterexample :
    empty_text_example.length = 2 ∧
    empty_text_example.map (fun s => s.text_content.length) = [0, 0] ∧
    analyze_url empty_text_example = Except.error AnalyticsError.degenerate_input := by
  refine ⟨rfl, rfl, ?_⟩
  simp [analyze_url, empty_text_example, mk_snap, lookup_compounds, dict_lookup,
    stability_scores]

/-- C2 amended: a single-snapshot sequence has content_stability exactly
1.0; a two-snapshot sequence with equal text lengths has content_stability
exactly 1.0 whenever the analysis succeeds (in particular whenever the
common length is nonzero); when both texts are empty the analysis instead
fails with the zero-division (degenerate-input) error. -/
theorem content_stability_amended :
    (∀ (s1 : PageSnapshot) (m : URLMetrics),
        analyze_url [s1] = Except.ok m → m.content_stability = 1) ∧
    (∀ (s1 s2 : PageSnapshot) (m : URLMetrics),
        s1.text_content.length = s2.text_content.length →
        analyze_url [s1, s2] = Except.ok m → m.content_stability = 1) ∧
    (∀ s1 s2 : PageSnapshot,
        s1.text_content.length = 0 → s2.text_content.length = 0 →
        (dict_lookup s1.sentiment_scores "compound").isSome →
        (dict_lookup s2.sentiment_scores "compound").isSome →
        analyze_url [s1, s2] = Except.error AnalyticsError.degenerate_input) := by
  refine ⟨?_, ?_, ?_⟩
  · intro s1 m h
    obtain ⟨s0, rest, compounds, scores, heq, hcm, hst, hm⟩ := analyze_url_ok_elim h
    injection heq with h1 h2
    subst h1
    subst h2
    simp [hm]
  · intro s1 s2 m hlen h
    obtain ⟨s0, rest, compounds, scores, heq, hcm, hst, hm⟩ := analyze_url_ok_elim h
    injection heq with h1 h2
    subst h1
    subst h2
    simp only [stability_scores] at hst
    by_cases h0 : max s1.text_content.length s2.text_content.length = 0
    · rw [if_pos h0] at hst
      simp at hst
    · rw [if_neg h0] at hst
      simp only [Except.ok.injEq] at hst
      subst hst
      simp only [hm, List.length_cons, List.length_nil]
      norm_num [np_mean, hlen]
  · intro s1 s2 hl1 hl2 hc1 hc2
    obtain ⟨v1, hv1⟩ := Option.isSome_iff_exists.mp hc1
    obtain ⟨v2, hv2⟩ := Option.isSome_iff_exists.mp hc2
    simp [analyze_url, lookup_compounds, hv1, hv2, stability_scores, hl1, hl2]

/-- Witness for C2 amended: a concrete single-snapshot run yields stability
1, and the concrete both-empty pair raises the degenerate-input error. -/
theorem content_stability_amended_witness :
    (URLMetrics.mk 0 0 0 [] [(200, 1)] 1).content_stability = 1 ∧
    analyze_url empty_text_example = Except.error AnalyticsError.degenerate_input := by
  constructor
  · refine content_stability_amended.1 (mk_snap 0 "a" "x" 0 [] 200) _ ?_
    simp [analyze_url, mk_snap, lookup_compounds, dict_lookup, stability_scores,
      count_changes, collect_response_times, count_statuses, bump_status,
      np_mean, np_var, length_x]
  · exact content_stability_amended.2.2 (mk_snap 0 "a" "" 0 [] 200)
      (mk_snap 10 "b" "" 0 [] 200) (by decide) (by decide)
      (by simp [mk_snap, dict_lookup]) (by simp [mk_snap, dict_lookup])

/-- Evaluation of the analyzer on the sentiment example. -/
lemma analyze_sentiment_example :
    analyze_url sentiment_example = Except.ok sentiment_example_metrics := by
  simp [analyze_url, sentiment_example, mk_snap, lookup_compounds, dict_lookup,
    stability_scores, count_changes, collect_response_times, count_statuses, bump_status,
    np_mean, np_var, sentiment_example_metrics, length_x]
  norm_num

/-- C3 counterexample: the population standard deviation of the compound
sentiments 0, 0.5, -0.5, 0.5 is the square root of 11/64 ≈ 0.4146, which is
more than 0.004 below the claimed 0.4213. -/
theorem sentiment_volatility_counterexample :
    (analyze_url sentiment_example).map (fun m => m.sentiment_volatility_sq) =
      Except.ok (11/64) ∧
    Real.sqrt (11/64) + 1/250 < 4213/10000 := by
  constructor
  · rw [analyze_sentiment_example]
    simp [sentiment_example_metrics, Except.map]
  · have h1 : Real.sqrt (11/64) < 4173/10000 := by
      rw [Real.sqrt_lt' (by norm_num)]
      norm_num
    linarith

/-- C3 amended: `avg_sentiment` and `sentiment_volatility` are the
arithmetic mean and the population (not sample) standard deviation of the
compound scores; for compounds 0, 0.5, -0.5, 0.5 the mean is 0.125 and the
volatility is the square root of the population variance 11/64,
approximately 0.4146 (not 0.4213). -/
theorem sentiment_stats_amended :
    (∀ (snaps : List PageSnapshot) (compounds : List ℚ) (m : URLMetrics),
        lookup_compounds snaps = some compounds →
        analyze_url snaps = Except.ok m →
        m.avg_sentiment = compounds.sum / (compounds.length : ℚ) ∧
        m.sentiment_volatility_sq =
          (compounds.map
              (fun x => (x - compounds.sum / (compounds.length : ℚ)) ^ 2)).sum /
            (compounds.length : ℚ)) ∧
    (analyze_url sentiment_example).map
        (fun m => (m.avg_sentiment, m.sentiment_volatility_sq)) =
      Except.ok (1/8, 11/64) ∧
    |Real.sqrt (11/64) - 4146/10000| < 1/1000 := by
  refine ⟨?_, ?_, ?_⟩
  · intro snaps compounds m hcomp ha
    obtain ⟨s0, rest, compounds2, scores, heq, hcm, hst, hm⟩ := analyze_url_ok_elim ha
    rw [hcomp] at hcm
    injection hcm with hcc
    subst hcc
    constructor
    · simp [hm, np_mean]
    · simp [hm, np_var, np_mean, List.length_map]
  · rw [analyze_sentiment_example]
    simp [sentiment_example_metrics, Except.map]
  · rw [abs_sub_lt_iff]
    constructor
    · have h1 : Real.sqrt (11/64) < 4156/10000 := by
        rw [Real.sqrt_lt' (by norm_num)]
        norm_num
      linarith
    · have h2 : (4136 : ℝ)/10000 < Real.sqrt (11/64) := by
        rw [Real.lt_sqrt (by norm_num)]
        norm_num
      linarith

/-- Witness for C3 amended: the metrics of the sentiment example satisfy
the mean and population-variance formulas on the concrete compound list. -/
theorem sentiment_stats_amended_witness :
    sentiment_example_metrics.avg_sentiment =
        ([(0 : ℚ), 1/2, -1/2, 1/2].sum / (([(0 : ℚ), 1/2, -1/2, 1/2].length : ℚ))) ∧
      sentiment_example_metrics.sentiment_volatility_sq =
        (([(0 : ℚ), 1/2, -1/2, 1/2].map
            (fun x =>
              (x - [(0 : ℚ), 1/2, -1/2, 1/2].sum /
                  (([(0 : ℚ), 1/2, -1/2, 1/2].length : ℚ))) ^ 2)).sum /
          (([(0 : ℚ), 1/2, -1/2, 1/2].length : ℚ))) :=
  sentiment_stats_amended.1 sentiment_example [0, 1/2, -1/2, 1/2]
    sentiment_example_metrics
    (by simp [sentiment_example, mk_snap, lookup_compounds, dict_lookup])
    analyze_sentiment_example

/-- C6 counterexample: a URL with one recorded response time of -2 (header
parsed from the string "-2") gets performance_score = 1 from the code,
while 1/(1+mean(response_times)) evaluates to -1. -/
theorem performance_score_counterexample :
    (analyze_url negative_rt_example).map (fun m => m.response_times) = Except.ok [-2] ∧
    ((analyze_url negative_rt_example).bind (fun m => score_url m 0 0)).map
        (fun s => s.performance_score) = Except.ok 1 ∧
    (1 : ℚ) / (1 + np_mean [-2]) = -1 := by
  have ha : analyze_url negative_rt_example =
      Except.ok (URLMetrics.mk 0 0 0 [-2] [(200, 1)] 1) := by
    simp [analyze_url, negative_rt_example, mk_snap, lookup_compounds, dict_lookup,
      stability_scores, count_changes, collect_response_times, count_statuses,
      bump_status, np_mean, np_var, length_x]
  refine ⟨by rw [ha]; simp [Except.map], ?_, by norm_num [np_mean]⟩
  rw [ha]
  norm_num [Except.bind, Except.map, score_url, total_statuses, np_mean, dict_lookup]

/-- C6 amended: `performance_score` equals 1/(1+mean(response_times)) when
at least one response time is recorded and their mean is positive;
otherwise (no recorded response times, or a non-positive mean)
`performance_score` equals 1. -/
theorem performance_score_amended :
    ∀ (m : URLMetrics) (a b : ℚ) (s : ComparativeScores),
      score_url m a b = Except.ok s →
      ((m.response_times ≠ [] ∧ np_mean m.response_times > 0) →
        s.performance_score = 1 / (1 + np_mean m.response_times)) ∧
      ((m.response_times = [] ∨ np_mean m.response_times ≤ 0) →
        s.performance_score = 1) := by
  intro m a b s h
  by_cases ht : total_statuses m = 0
  · rw [score_url_no_statuses ht] at h
    simp at h
  · simp only [score_url] at h
    rw [if_neg ht] at h
    simp only [Except.ok.injEq] at h
    subst h
    constructor
    · rintro ⟨hne, hpos⟩
      have hemp : m.response_times.isEmpty = false := by
        cases hrt : m.response_times with
        | nil => exact absurd hrt hne
        | cons x xs => rfl
      simp only [hemp, Bool.false_eq_true, if_false]
      rw [if_pos hpos]
    · intro hcase
      cases hcase with
      | inl hnil =>
          simp [hnil, np_mean]
      | inr hle =>
          by_cases hemp : m.response_times.isEmpty
          · simp [hemp]
          · simp only [hemp, Bool.false_eq_true, if_false]
            rw [if_neg (not_lt.mpr hle)]

/-- Witness for C6 amended: metrics with the single recorded response time
1 score performance 1/(1+1) = 1/2. -/
theorem performance_score_amended_witness :
    (ComparativeScores.mk 0 1 1 0 (1/2)).performance_score =
      1 / (1 + np_mean positive_rt_metrics.response_times) :=
  (performance_score_amended positive_rt_metrics 0 0 (ComparativeScores.mk 0 1 1 0 (1/2))
      (by norm_num [score_url, positive_rt_metrics, total_statuses, np_mean,
        dict_lookup])).1
    ⟨by simp [positive_rt_metrics], by norm_num [positive_rt_metrics, np_mean]⟩
